import Mathlib

/-!
Verification of the stormdb cluster-job lifecycle (src/stormdb/cluster.py).

Shallow embedding of the `ClusterJob` / `ClusterBatch` classes from
`src/stormdb/cluster.py`.  The Python objects hold mutable boolean flags
(`_submitted`, `_running`, `_waiting`, `_completed`), a job identifier
(`_jobid`, a string or `None`) and a human-readable status message
(`_status_msg`).  We model each method as a pure function from the current
state and the external inputs it consumes (the text returned by the
scheduler listing, the outcome of the `qsub`/`qdel` subprocess calls) to a
new state, together with the list of external calls the method issued and
an optional Python exception.

External subprocess interactions are inputs of the model:
* the `qstat | grep | awk` pipeline of `_check_status` yields a raw string
  (`resp` below, consumed after `rstrip`);
* `qsub` in `submit` either succeeds with an output string or raises
  `CalledProcessError`;
* `qdel` in `kill` either succeeds or raises `CalledProcessError`.
-/

/-- Python exception kinds raised by the embedded code paths. -/
inductive PyError where
  | valueError
  | typeError
  | attributeError
  | runtimeError
  deriving DecidableEq, Repr

/-- External process invocations made by the code.  `submitCall`,
`queryCall` and `cancelCall` are the three scheduler-gateway operations
(`qsub`, the `qstat` job listing, `qdel`); `inventoryCall` is the
queue-inventory lookup `qstat -g c` done by `Cluster.get_load`;
`projCheckCall` is the external project-registry check. -/
inductive ExternalCall where
  | submitCall
  | queryCall
  | cancelCall
  | inventoryCall
  | projCheckCall
  deriving DecidableEq, Repr

/-- The three scheduler-gateway operations (submit/query/cancel). -/
def isGatewayCall : ExternalCall → Bool
  | .submitCall => true
  | .queryCall => true
  | .cancelCall => true
  | _ => false

/-- Mutable per-job state of a Python `ClusterJob`: the four status flags,
the job identifier and the last status message (`cluster.py` lines 91-96). -/
structure JobState where
  submitted : Bool
  running : Bool
  waiting : Bool
  completed : Bool
  jobid : Option String
  statusMsg : String
  deriving DecidableEq, Repr

/-- Result of running one method: the job state afterwards, the external
calls issued, and the Python exception raised (if any).  When `err` is
`some e` the state records the mutations already applied before the raise. -/
structure StepResult where
  state : JobState
  calls : List ExternalCall
  err : Option PyError
  deriving DecidableEq, Repr

/-- Python `str.split(sep)` with a one-character separator: split at every
occurrence, keeping empty pieces (auxiliary recursion on characters). -/
def pySplitAux (sep : Char) : List Char → List Char → List (List Char)
  | [], acc => [acc.reverse]
  | c :: cs, acc =>
    if c = sep then acc.reverse :: pySplitAux sep cs []
    else pySplitAux sep cs (c :: acc)

/-- Python `s.split(sep)` for a one-character separator. -/
def pySplit (sep : Char) (s : String) : List String :=
  (pySplitAux sep s.data []).map String.mk

/-- Python `str.rstrip()`: drop trailing whitespace. -/
def pyRstrip (s : String) : String :=
  String.mk ((s.data.reverse.dropWhile Char.isWhitespace).reverse)

/-- Interpretation of the listing output in `ClusterJob._check_status`
(`cluster.py` lines 199-231), applied to the r-stripped text `output` of
the `qstat` pipeline; returns the updated state and the Python exception
raised, if any:
* empty output: if submitted and no flag is set, only `_status_msg` is set
  to the submission-failed text; if submitted and previously `_running`,
  the job becomes `_completed` with message `Job completed`;
* otherwise the line is unpacked as `runcode, hostname = output.split(' ')`
  (a `ValueError` unless exactly two fields); run-code `r` unpacks
  `queuename, exechost = hostname.split('@')` and strips the domain suffix
  of `exechost` at the first dot; run-code `qw` marks the job waiting; any
  other run-code also sets `_waiting = True`, with an odd-status message
  quoting the raw code. -/
def checkStatusParse (s : JobState) (output : String) : JobState × Option PyError :=
  if output.data.isEmpty then
    if s.submitted && !s.running && !s.completed && !s.waiting then
      ({ s with statusMsg := "Submission failed, see log for output errors!" }, none)
    else if s.submitted && !s.completed then
      if s.running then
        ({ s with
            statusMsg := "Job completed",
            running := false, waiting := false, completed := true }, none)
      else (s, none)
    else (s, none)
  else
    match pySplit ' ' output with
    | [runcode, hostname] =>
      if runcode = "r" then
        match pySplit '@' hostname with
        | [queuename, exechost0] =>
          let exechost := (pySplit '.' exechost0).headD ""
          ({ s with
              running := true, waiting := false, completed := false,
              statusMsg := "Running on " ++ exechost ++ " (" ++ queuename ++ ")" }, none)
        | _ => (s, some .valueError)
      else if runcode = "qw" then
        ({ s with
            running := false, waiting := true, completed := false,
            statusMsg := "Waiting in the queue" }, none)
      else
        ({ s with
            running := false, waiting := true, completed := false,
            statusMsg := "Queue status odd (qstat says: " ++ runcode ++ "), please check!" },
         none)
    | _ => (s, some .valueError)

/-- The method `_check_status` proper: the early return on `_completed` issues no
subprocess call; otherwise exactly one listing query is run and its
r-stripped output is interpreted by `checkStatusParse`. -/
def checkStatus (s : JobState) (resp : String) : StepResult :=
  if s.completed then ⟨s, [], none⟩
  else
    let r := checkStatusParse s (pyRstrip resp)
    ⟨r.1, [.queryCall], r.2⟩

/-- Outcome of the `qsub submit_job.sh` subprocess in `submit`. -/
inductive QsubResult where
  | ok (output : String)
  | fail
  deriving DecidableEq, Repr

/-- Python `re.search` for the pattern of one-or-more digits: the first
contiguous run of decimal digits of the string, if any. -/
def firstDigitRun : List Char → Option String
  | [] => none
  | c :: cs =>
    if c.isDigit then some (String.mk (c :: cs.takeWhile Char.isDigit))
    else firstDigitRun cs

/-- Fresh state set by `ClusterJob.__init__` (`cluster.py` lines 91-96). -/
def initJobState : JobState :=
  { submitted := false, running := false, waiting := false, completed := false,
    jobid := none, statusMsg := "Job not submitted yet" }

/-- Method `ClusterJob.submit` (`cluster.py` lines 146-184).  It first refreshes
status via `_check_status` (consuming `resp`); if the job is flagged
submitted it prints the current situation and returns (four branches, all
plain returns); in fake mode it prints the script and returns; otherwise it
writes the script and invokes `qsub` (`qr`).  A `CalledProcessError` is
re-raised as `RuntimeError` with the flags untouched; on success the first
digit run of the output becomes `_jobid` (no digits: `m.group(1)` on `None`
raises `AttributeError`) and `_submitted` is set. -/
def submit (s : JobState) (resp : String) (fake : Bool) (qr : QsubResult) : StepResult :=
  let c := checkStatus s resp
  match c.err with
  | some _ => c
  | none =>
    let s1 := c.state
    if s1.submitted then ⟨s1, c.calls, none⟩
    else if fake then ⟨s1, c.calls, none⟩
    else
      match qr with
      | .fail => ⟨s1, c.calls ++ [.submitCall], some .runtimeError⟩
      | .ok output =>
        match firstDigitRun (pyRstrip output).data with
        | none => ⟨s1, c.calls ++ [.submitCall], some .attributeError⟩
        | some jid =>
          ⟨{ s1 with jobid := some jid, submitted := true },
           c.calls ++ [.submitCall], none⟩

/-- Method `ClusterJob.kill` (`cluster.py` lines 233-247).  Refreshes status, and
when the job is submitted and running-or-waiting invokes `qdel` (`qdelOk`
is the subprocess outcome): on success the three flags are cleared and the
message becomes the killed text — `_jobid` is not touched; on failure a
`RuntimeError` is raised with the state unchanged.  A non-active job is a
no-op after the status refresh. -/
def kill (s : JobState) (resp : String) (qdelOk : Bool) : StepResult :=
  let c := checkStatus s resp
  match c.err with
  | some _ => c
  | none =>
    let s1 := c.state
    if s1.submitted && (s1.running || s1.waiting) then
      if qdelOk then
        ⟨{ s1 with
            running := false, waiting := false, completed := false,
            statusMsg := "Job was previously killed." },
         c.calls ++ [.cancelCall], none⟩
      else ⟨s1, c.calls ++ [.cancelCall], some .runtimeError⟩
    else ⟨s1, c.calls, none⟩

-- Concrete reachable states used by several theorems below.

/-- State after a successful first submission answered with the usual
`qsub` acknowledgement line. -/
def exSubmitted : JobState :=
  (submit initJobState "" false
    (.ok "Your job 123456 (py-wrapper) has been submitted")).state

/-- State `exSubmitted` after a poll that lists the job running on queue
`short.q` at host `node03.cluster` (Grid Engine prints `queue@host`). -/
def exRunning : JobState :=
  (checkStatus exSubmitted "r short.q@node03.cluster").state

/-- State `exRunning` after a successful `kill()`. -/
def exKilled : JobState :=
  (kill exRunning "r short.q@node03.cluster" true).state

/-- State `exRunning` after a poll with an empty listing (job finished). -/
def exCompleted : JobState :=
  (checkStatus exRunning "").state


/-- Result of `ClusterJob.__init__`: the constructed job state (or `none`
when the constructor raised), the external calls issued, and the raised
exception if any. -/
structure InitResult where
  job : Option JobState
  calls : List ExternalCall
  err : Option PyError
  deriving DecidableEq, Repr

/-- Constructor `ClusterJob.__init__` (`cluster.py` lines 73-112).  `cmd` and
`projName` must be truthy (non-empty); the project check is an external
call (`projOk` is its outcome; the validator itself lives in
`stormdb/access.py`, outside the embedded file); the queue must be a
member of the inventory returned by `Cluster.get_load` (the `qstat -g c`
call); with `n_threads > 1` any queue other than the literal `isis.q`
raises `ValueError` before any gateway submit/query/cancel call is
possible.  On success the job starts in the fresh state `initJobState`. -/
def clusterJobInit (cmd : String) (projName : String) (projOk : Bool)
    (inventory : List String) (queue : String) (nThreads : Nat) : InitResult :=
  if cmd = "" then ⟨none, [], some .valueError⟩
  else if projName = "" then ⟨none, [], some .valueError⟩
  else if !projOk then ⟨none, [.projCheckCall], some .valueError⟩
  else if !(inventory.contains queue) then
    ⟨none, [.projCheckCall, .inventoryCall], some .valueError⟩
  else if nThreads > 1 && queue ≠ "isis.q" then
    ⟨none, [.projCheckCall, .inventoryCall], some .valueError⟩
  else ⟨some initJobState, [.projCheckCall, .inventoryCall], none⟩

/-!
ClusterBatch.

`ClusterBatch.__init__` builds a `logging.getLogger` logger, attaches a
handler when none exists, and runs the `verbose` property setter.  The
`verbose` getter calls `self.logger.getLevel()`, a method that does not
exist on Python `logging.Logger` objects, so reading the property raises
`AttributeError`.
-/

/-- Python `logging` level constants used by the code. -/
def logDEBUG : Nat := 10

/-- Python `logging.INFO`. -/
def logINFO : Nat := 20

/-- The relevant observable pieces of a Python `logging.Logger`: its
effective level, how many handlers are attached, and the propagate flag. -/
structure PyLogger where
  level : Nat
  handlers : Nat
  propagate : Bool
  deriving DecidableEq, Repr

/-- Attribute lookup of a zero-argument `Nat`-returning method on a Python
`logging.Logger`.  The stdlib `Logger` API offers `setLevel` and
`getEffectiveLevel` (plus the plain attribute `level`); there is no method
named `getLevel`, so looking that name up yields `none`, which in Python
is an `AttributeError` at the call site. -/
def loggerGetMethod (name : String) : Option (PyLogger → Nat) :=
  if name = "getEffectiveLevel" then some PyLogger.level
  else none

/-- Property getter `ClusterBatch.verbose` (`cluster.py` lines 267-272): evaluates
`self.logger.getLevel() > logging.DEBUG` and returns the negation.  The
attribute lookup of `getLevel` is modelled through `loggerGetMethod`. -/
def verboseGet (lg : PyLogger) : Except PyError Bool :=
  match loggerGetMethod "getLevel" with
  | none => .error .attributeError
  | some m => if m lg > logDEBUG then .ok false else .ok true

/-- Property setter `ClusterBatch.verbose` (`cluster.py` lines 274-281) applied to a
`bool` value (a non-bool raises `RuntimeError`; construction always passes
a bool): `True` sets the logger level to `DEBUG`, `False` to `INFO`. -/
def verboseSet (lg : PyLogger) (value : Bool) : PyLogger :=
  if value then { lg with level := logDEBUG }
  else { lg with level := logINFO }

/-- State of a `ClusterBatch`: project name, ordered job list, logger. -/
structure BatchState where
  projName : String
  joblist : List JobState
  logger : PyLogger
  deriving DecidableEq, Repr

/-- Constructor `ClusterBatch.__init__` (`cluster.py` lines 253-265): validates the
project externally (`projOk`), starts with an empty job list, fetches the
shared logger (which arrives with `nHandlers` handlers already attached),
attaches a stream handler only when none exist, and assigns the `verbose`
property (running the setter). -/
def clusterBatchInit (projName : String) (projOk : Bool) (verbose : Bool)
    (nHandlers : Nat) : Except PyError BatchState :=
  if !projOk then .error .valueError
  else
    let lg0 : PyLogger := { level := 0, handlers := nHandlers, propagate := true }
    let lg1 := if lg0.handlers = 0 then { lg0 with propagate := false, handlers := 1 } else lg0
    .ok { projName := projName, joblist := [], logger := verboseSet lg1 verbose }

/-- Python `int(s)` on the strings stored in `_jobid` (plain decimal
digits): `some` the numeric value, `none` when the text is not a decimal
numeral (Python `ValueError`). -/
def pyIntOfStr (s : String) : Option Int :=
  if s.data ≠ [] ∧ s.data.all Char.isDigit then
    some (Int.ofNat (s.data.foldl (fun acc c => 10 * acc + (c.toNat - 48)) 0))
  else none

/-- Method `ClusterBatch.kill` (`cluster.py` lines 283-287) with an explicit
`jobid` argument.  Each job is paired with the listing text its own
`_check_status` would consume.  The loop body evaluates
`int(job._jobid) == int(jobid)`: when `job._jobid` is `None`, `int(None)`
raises `TypeError` on the spot and the iteration aborts; when it is a
non-numeric string, `ValueError`; matching jobs are killed in place.
Returns the job states after the loop together with the exception that
aborted it, if any. -/
def batchKillTargeted (jid : Int) (qdelOk : Bool) :
    List (JobState × String) → List JobState × Option PyError
  | [] => ([], none)
  | (j, resp) :: rest =>
    match j.jobid with
    | none => (j :: rest.map Prod.fst, some .typeError)
    | some str =>
      match pyIntOfStr str with
      | none => (j :: rest.map Prod.fst, some .valueError)
      | some n =>
        if n = jid then
          match (kill j resp qdelOk).err with
          | some e => ((kill j resp qdelOk).state :: rest.map Prod.fst, some e)
          | none =>
            ((kill j resp qdelOk).state :: (batchKillTargeted jid qdelOk rest).1,
             (batchKillTargeted jid qdelOk rest).2)
        else
          (j :: (batchKillTargeted jid qdelOk rest).1,
           (batchKillTargeted jid qdelOk rest).2)

/-- Method `ClusterBatch.kill` with `jobid=None`: every job is killed in order;
an exception raised by one job's `kill` aborts the loop there. -/
def batchKillAll (qdelOk : Bool) :
    List (JobState × String) → List JobState × Option PyError
  | [] => ([], none)
  | (j, resp) :: rest =>
    match (kill j resp qdelOk).err with
    | some e => ((kill j resp qdelOk).state :: rest.map Prod.fst, some e)
    | none =>
      ((kill j resp qdelOk).state :: (batchKillAll qdelOk rest).1,
       (batchKillAll qdelOk rest).2)

/-- Method `ClusterBatch.kill` (`cluster.py` lines 283-287): with `jobid=None`
every job is killed in order; with an explicit `jobid` the targeted
variant runs. -/
def batchKill (jobs : List (JobState × String)) (jobidArg : Option Int)
    (qdelOk : Bool) : List JobState × Option PyError :=
  match jobidArg with
  | some jid => batchKillTargeted jid qdelOk jobs
  | none => batchKillAll qdelOk jobs

/-!
General lemmas about the embedded operations.
-/

/-- Interpreting a listing line never touches the job identifier. -/
theorem checkStatusParse_jobid (s : JobState) (output : String) :
    (checkStatusParse s output).1.jobid = s.jobid := by
  unfold checkStatusParse
  repeat first
  | rfl
  | split

/-- A status check never touches the job identifier. -/
theorem checkStatus_jobid (s : JobState) (resp : String) :
    (checkStatus s resp).state.jobid = s.jobid := by
  unfold checkStatus
  split
  · rfl
  · exact checkStatusParse_jobid s (pyRstrip resp)

/-- A status check issues no call, or exactly the one listing query. -/
theorem checkStatus_calls (s : JobState) (resp : String) :
    (checkStatus s resp).calls = [] ∨
    (checkStatus s resp).calls = [ExternalCall.queryCall] := by
  unfold checkStatus
  split
  · exact Or.inl rfl
  · exact Or.inr rfl

/-- Structure eta for step results with no exception. -/
theorem stepResultEtaNone (r : StepResult) (h : r.err = none) :
    r = ⟨r.state, r.calls, none⟩ := by
  cases r with
  | mk st cs er =>
    rw [show er = none from h]


/-!
The claims.
-/

/-- C1: «For every submitted ClusterJob, a poll that receives an empty
scheduler listing resolves as follows: if the job was previously observed
Running, its state transitions to Completed; if it has never been observed
Running or Waiting, its state transitions to Failed.»  Counterexample: the
code keys on the current `_running` flag, not on the historical
observation.  A job that was observed Running and was then successfully
killed (flags all cleared, `_completed` false) polls an empty listing into
the submission-failed message, not into Completed. -/
theorem C1_counterexample :
    exRunning.running = true ∧
    exKilled = (kill exRunning "r short.q@node03.cluster" true).state ∧
    exKilled.submitted = true ∧
    (checkStatus exKilled "").state.completed = false ∧
    (checkStatus exKilled "").state.statusMsg =
      "Submission failed, see log for output errors!" :=
  ⟨by decide, rfl, by decide, by decide, by decide⟩

/-- C1 (amended): for every submitted, non-completed ClusterJob, a poll
that receives an empty scheduler listing resolves as follows: if the job
is currently flagged Running, it transitions to Completed; if it is
currently flagged neither Running nor Waiting, its status message becomes
the submission-failed (Failed) text with the flags unchanged. -/
theorem C1_empty_listing (s : JobState)
    (hsub : s.submitted = true) (hc : s.completed = false) :
    (s.running = true →
      checkStatus s "" =
        ⟨{ s with
            statusMsg := "Job completed",
            running := false, waiting := false, completed := true },
         [ExternalCall.queryCall], none⟩) ∧
    (s.running = false → s.waiting = false →
      checkStatus s "" =
        ⟨{ s with statusMsg := "Submission failed, see log for output errors!" },
         [ExternalCall.queryCall], none⟩) := by
  have hempty : (pyRstrip "").data.isEmpty = true := by decide
  constructor
  · intro hr
    simp [checkStatus, checkStatusParse, hempty, hsub, hc, hr]
  · intro hr hw
    simp [checkStatus, checkStatusParse, hempty, hsub, hc, hr, hw]

/-- Witness for `C1_empty_listing`: a running job completes on an empty
listing; a freshly submitted job gets the submission-failed message. -/
theorem C1_empty_listing_witness :
    (checkStatus exRunning "").state.completed = true ∧
    (checkStatus exSubmitted "").state.statusMsg =
      "Submission failed, see log for output errors!" := by
  constructor
  · rw [(C1_empty_listing exRunning (by decide) (by decide)).1 (by decide)]
  · rw [(C1_empty_listing exSubmitted (by decide) (by decide)).2 (by decide) (by decide)]

/-- C4: «For every ClusterJob in a terminal state (Completed or Killed),
calling poll()/status never contacts the scheduler gateway.»
Counterexample: only the `_completed` flag short-circuits
`_check_status`; a successfully killed job (message `Job was previously
killed.`) issues a listing query on its next poll. -/
theorem C4_counterexample :
    exKilled.statusMsg = "Job was previously killed." ∧
    (checkStatus exKilled "").calls = [ExternalCall.queryCall] := by decide

/-- C4 (amended): a ClusterJob in Completed short-circuits the status
check with zero gateway calls and an unchanged state, but a Killed job is
not short-circuited (it re-queries, as `C4_counterexample` shows). -/
theorem C4_completed_short_circuit (s : JobState) (resp : String)
    (hc : s.completed = true) :
    checkStatus s resp = ⟨s, [], none⟩ := by
  simp [checkStatus, hc]

/-- Witness for `C4_completed_short_circuit` at a reachable completed
state. -/
theorem C4_completed_short_circuit_witness :
    checkStatus exCompleted "qw short.q@node03.cluster" = ⟨exCompleted, [], none⟩ :=
  C4_completed_short_circuit exCompleted "qw short.q@node03.cluster" (by decide)

/-- C2: «For every valid JobSpec, calling submit() on a fresh ClusterJob
(state NotSubmitted) leaves the job in exactly one of the states Submitted
or Failed after the call; it never remains in NotSubmitted.»
Counterexample: when `qsub` exits non-zero, `submit` re-raises a
`RuntimeError` with `_submitted` still false — after the call the job is
still NotSubmitted (no Failed flag or message is ever assigned there). -/
theorem C2_counterexample :
    (submit initJobState "" false .fail).state.submitted = false ∧
    (submit initJobState "" false .fail).err = some PyError.runtimeError := by
  decide

/-- C2 (amended): submit() on a fresh ClusterJob either succeeds —
`_submitted` set and a job identifier assigned — or raises
(`RuntimeError` on a failed `qsub`, `AttributeError` when no digit run is
found in the output) and leaves the job exactly in its fresh NotSubmitted
state. -/
theorem C2_submit_fresh (qr : QsubResult) :
    ((submit initJobState "" false qr).err = none ∧
      (submit initJobState "" false qr).state.submitted = true ∧
      (submit initJobState "" false qr).state.jobid.isSome = true) ∨
    ((submit initJobState "" false qr).err.isSome = true ∧
      (submit initJobState "" false qr).state = initJobState) := by
  cases qr with
  | fail => exact Or.inr ⟨by decide, by decide⟩
  | ok output =>
    have hcs : checkStatus initJobState "" =
        ⟨initJobState, [ExternalCall.queryCall], none⟩ := by decide
    cases h : firstDigitRun (pyRstrip output).data with
    | none =>
      refine Or.inr ⟨?_, ?_⟩ <;> (simp only [submit, hcs, h]; decide)
    | some jid =>
      refine Or.inl ⟨?_, ?_, ?_⟩ <;> (simp only [submit, hcs, h]; simp [initJobState])

/-- C3: «For every poll in which the scheduler listing returns a run-code
other than the running marker and the queued marker, the job is mapped to
a distinct degraded Unknown state carrying the raw code; it is never
silently treated as Waiting or any other known state.»  Counterexample:
the unknown-code branch sets `_waiting = True` — exactly the flag
assignment of the `qw` branch — so the job is flag-wise in the Waiting
state; only the status message differs. -/
theorem C3_counterexample :
    (checkStatus exSubmitted "Eqw short.q@node03.cluster").state.waiting = true ∧
    (checkStatus exSubmitted "Eqw short.q@node03.cluster").state.running =
      (checkStatus exSubmitted "qw short.q@node03.cluster").state.running ∧
    (checkStatus exSubmitted "Eqw short.q@node03.cluster").state.waiting =
      (checkStatus exSubmitted "qw short.q@node03.cluster").state.waiting ∧
    (checkStatus exSubmitted "Eqw short.q@node03.cluster").state.completed =
      (checkStatus exSubmitted "qw short.q@node03.cluster").state.completed ∧
    (checkStatus exSubmitted "Eqw short.q@node03.cluster").state.statusMsg =
      "Queue status odd (qstat says: Eqw), please check!" := by
  decide

/-- C3 (amended): a run-code other than `r` and `qw` in a two-field
listing line sets the same flags as the Waiting branch (`_running` false,
`_waiting` true, `_completed` false); the degradation is carried only by
the status message, which quotes the raw code. -/
theorem C3_unknown_runcode (s : JobState) (resp runcode hostname : String)
    (hc : s.completed = false)
    (hsplit : pySplit ' ' (pyRstrip resp) = [runcode, hostname])
    (hr : runcode ≠ "r") (hq : runcode ≠ "qw") :
    checkStatus s resp =
      ⟨{ s with
          running := false, waiting := true, completed := false,
          statusMsg := "Queue status odd (qstat says: " ++ runcode ++ "), please check!" },
       [ExternalCall.queryCall], none⟩ := by
  have hne : (pyRstrip resp).data.isEmpty = false := by
    cases hdata : (pyRstrip resp).data with
    | nil =>
      exfalso
      simp only [pySplit] at hsplit
      rw [hdata] at hsplit
      simp [pySplitAux] at hsplit
    | cons c cs => rfl
  have hparse : checkStatusParse s (pyRstrip resp) =
      ({ s with
          running := false, waiting := true, completed := false,
          statusMsg := "Queue status odd (qstat says: " ++ runcode ++ "), please check!" },
       none) := by
    simp [checkStatusParse, hne, hsplit, hr, hq]
  simp [checkStatus, hc, hparse]

/-- Witness for `C3_unknown_runcode` at the concrete listing line
`Eqw short.q@node03.cluster`. -/
theorem C3_unknown_runcode_witness :
    checkStatus exSubmitted "Eqw short.q@node03.cluster" =
      ⟨{ exSubmitted with
          running := false, waiting := true, completed := false,
          statusMsg := "Queue status odd (qstat says: Eqw), please check!" },
       [ExternalCall.queryCall], none⟩ := by
  have h := C3_unknown_runcode exSubmitted "Eqw short.q@node03.cluster" "Eqw"
      "short.q@node03.cluster" (by decide) (by decide) (by decide) (by decide)
  rw [h]; rfl

/-- C5: «Idempotence of submission: for every ClusterJob already in state
Waiting, Running, or Completed, calling submit() a second time without
resubmit is a no-op that leaves both the state and the job identifier
unchanged, and does not raise an error.»  Confirmed: when the initial
status refresh raises nothing and reports the state the job already had
(nothing changed at the scheduler between the two calls), submit on an
already-submitted job prints and returns — same state, same job id, no
error, and no `qsub` invocation. -/
theorem C5_submit_idempotent (s : JobState) (resp : String) (fake : Bool)
    (qr : QsubResult)
    (hsub : s.submitted = true)
    (hstate : (s.waiting || s.running || s.completed) = true)
    (herr : (checkStatus s resp).err = none)
    (hfix : (checkStatus s resp).state = s) :
    submit s resp fake qr = ⟨s, (checkStatus s resp).calls, none⟩ ∧
    ExternalCall.submitCall ∉ (submit s resp fake qr).calls := by
  have hcs : checkStatus s resp = ⟨s, (checkStatus s resp).calls, none⟩ := by
    conv_lhs => rw [stepResultEtaNone (checkStatus s resp) herr]
    rw [hfix]
  have hmain : submit s resp fake qr = ⟨s, (checkStatus s resp).calls, none⟩ := by
    unfold submit
    rw [hcs]
    simp [hsub]
  refine ⟨hmain, ?_⟩
  rw [hmain]
  rcases checkStatus_calls s resp with h | h <;> simp [h]

/-- Witness for `C5_submit_idempotent`: a second submit on a completed
job. -/
theorem C5_submit_idempotent_witness :
    submit exCompleted "" false .fail =
      ⟨exCompleted, (checkStatus exCompleted "").calls, none⟩ ∧
    ExternalCall.submitCall ∉ (submit exCompleted "" false .fail).calls :=
  C5_submit_idempotent exCompleted "" false .fail
    (by decide) (by decide) (by decide) (by decide)

/-- C6: «When the status query returns the line
`r node03.cluster@short.q` for a job, the job's state becomes Running with
execution host node03 and queue short.q».  Counterexample: the code
unpacks the second field as `queuename, exechost = hostname.split('@')`
(the Grid Engine listing prints `queue@host`), so on that input it takes
`node03.cluster` for the queue and `short.q` for the host, strips the
latter at its first dot, and reports `Running on short (node03.cluster)` —
not host node03, queue short.q. -/
theorem C6_counterexample :
    (checkStatus exSubmitted "r node03.cluster@short.q").state.running = true ∧
    (checkStatus exSubmitted "r node03.cluster@short.q").state.statusMsg =
      "Running on short (node03.cluster)" ∧
    (checkStatus exSubmitted "r node03.cluster@short.q").state.statusMsg ≠
      "Running on node03 (short.q)" := by
  decide

/-- C6 (amended): the second listing field is parsed as `queue@host`: when
the query returns `r short.q@node03.cluster` for a non-completed job, the
state becomes Running with execution host `node03` (domain suffix after
the first dot stripped for display) and queue `short.q`. -/
theorem C6_running_line (s : JobState) (hc : s.completed = false) :
    checkStatus s "r short.q@node03.cluster" =
      ⟨{ s with
          running := true, waiting := false, completed := false,
          statusMsg := "Running on node03 (short.q)" },
       [ExternalCall.queryCall], none⟩ := by
  have h1 : pyRstrip "r short.q@node03.cluster" = "r short.q@node03.cluster" := by
    decide
  have h2 : pySplit ' ' "r short.q@node03.cluster" =
      ["r", "short.q@node03.cluster"] := by decide
  have h3 : pySplit '@' "short.q@node03.cluster" =
      ["short.q", "node03.cluster"] := by decide
  have h4 : pySplit '.' "node03.cluster" = ["node03", "cluster"] := by decide
  have h5 : ("r short.q@node03.cluster").data.isEmpty = false := by decide
  have hparse : checkStatusParse s "r short.q@node03.cluster" =
      ({ s with
          running := true, waiting := false, completed := false,
          statusMsg := "Running on node03 (short.q)" }, none) := by
    simp [checkStatusParse, h2, h3, h4, h5]
  simp [checkStatus, hc, h1, hparse]

/-- Witness for `C6_running_line` at the reachable submitted state. -/
theorem C6_running_line_witness :
    checkStatus exSubmitted "r short.q@node03.cluster" =
      ⟨{ exSubmitted with
          running := true, waiting := false, completed := false,
          statusMsg := "Running on node03 (short.q)" },
       [ExternalCall.queryCall], none⟩ :=
  C6_running_line exSubmitted (by decide)

/-- C7: «For every ClusterJob in state Running or Waiting, a successful
kill() moves the job to the Killed state and clears its job identifier.»
Counterexample: `kill` clears the three flags and sets the killed message
but never assigns `_jobid`; after a successful kill of the running job the
identifier is still `123456`. -/
theorem C7_counterexample :
    exRunning.running = true ∧
    exRunning.jobid = some "123456" ∧
    (kill exRunning "r short.q@node03.cluster" true).err = none ∧
    (kill exRunning "r short.q@node03.cluster" true).state.statusMsg =
      "Job was previously killed." ∧
    (kill exRunning "r short.q@node03.cluster" true).state.jobid = some "123456" := by
  decide

/-- C7 (amended): for every ClusterJob whose refreshed state is submitted
and Running or Waiting, a successful kill() clears the three flags and
sets the killed status message, and the job identifier is retained
unchanged (not cleared). -/
theorem C7_kill_active (s : JobState) (resp : String)
    (herr : (checkStatus s resp).err = none)
    (hsub : (checkStatus s resp).state.submitted = true)
    (hact : ((checkStatus s resp).state.running ||
      (checkStatus s resp).state.waiting) = true) :
    kill s resp true =
      ⟨{ (checkStatus s resp).state with
          running := false, waiting := false, completed := false,
          statusMsg := "Job was previously killed." },
       (checkStatus s resp).calls ++ [ExternalCall.cancelCall], none⟩ ∧
    (kill s resp true).state.jobid = s.jobid := by
  have hj := checkStatus_jobid s resp
  have hcs := stepResultEtaNone (checkStatus s resp) herr
  have hmain : kill s resp true =
      ⟨{ (checkStatus s resp).state with
          running := false, waiting := false, completed := false,
          statusMsg := "Job was previously killed." },
       (checkStatus s resp).calls ++ [ExternalCall.cancelCall], none⟩ := by
    unfold kill
    rw [hcs]
    simp [hsub, hact]
  refine ⟨hmain, ?_⟩
  rw [hmain]
  simpa using hj

/-- Witness for `C7_kill_active` at the reachable running state. -/
theorem C7_kill_active_witness :
    (kill exRunning "r short.q@node03.cluster" true =
      ⟨{ (checkStatus exRunning "r short.q@node03.cluster").state with
          running := false, waiting := false, completed := false,
          statusMsg := "Job was previously killed." },
       (checkStatus exRunning "r short.q@node03.cluster").calls ++
         [ExternalCall.cancelCall], none⟩) ∧
    (kill exRunning "r short.q@node03.cluster" true).state.jobid = exRunning.jobid :=
  C7_kill_active exRunning "r short.q@node03.cluster"
    (by decide) (by decide) (by decide)

/-- C8: «Constructing a ClusterJob with thread count greater than 1 and a
queue that is not in the parallel-capable set fails with a configuration
error at construction time, before any gateway submit/query/cancel
contact.»  Confirmed: with a non-empty command, a valid project and a
queue present in the inventory but different from `isis.q`, the
constructor raises `ValueError` having issued only the project check and
the queue-inventory lookup — no gateway submit/query/cancel call, and no
job object exists for a later submission to act on. -/
theorem C8_threaded_queue_check (cmd projName queue : String)
    (inventory : List String) (nThreads : Nat)
    (hcmd : cmd ≠ "") (hproj : projName ≠ "")
    (hqueue : inventory.contains queue = true)
    (hpar : queue ≠ "isis.q") (hthreads : 1 < nThreads) :
    clusterJobInit cmd projName true inventory queue nThreads =
      ⟨none, [ExternalCall.projCheckCall, ExternalCall.inventoryCall],
       some PyError.valueError⟩ ∧
    (clusterJobInit cmd projName true inventory queue nThreads).calls.filter
      isGatewayCall = [] := by
  have hmain : clusterJobInit cmd projName true inventory queue nThreads =
      ⟨none, [ExternalCall.projCheckCall, ExternalCall.inventoryCall],
       some PyError.valueError⟩ := by
    simp [clusterJobInit, hcmd, hproj, hqueue, hpar, hthreads]
  refine ⟨hmain, ?_⟩
  rw [hmain]
  decide

/-- Witness for `C8_threaded_queue_check`: two threads on `short.q`. -/
theorem C8_threaded_queue_check_witness :
    clusterJobInit "touch ./foo.txt" "MINDLAB2011_24-MEG-class" true
      ["short.q", "long.q", "isis.q"] "short.q" 2 =
      ⟨none, [ExternalCall.projCheckCall, ExternalCall.inventoryCall],
       some PyError.valueError⟩ ∧
    (clusterJobInit "touch ./foo.txt" "MINDLAB2011_24-MEG-class" true
      ["short.q", "long.q", "isis.q"] "short.q" 2).calls.filter
      isGatewayCall = [] :=
  C8_threaded_queue_check "touch ./foo.txt" "MINDLAB2011_24-MEG-class" "short.q"
    ["short.q", "long.q", "isis.q"] 2
    (by decide) (by decide) (by decide) (by decide) (by decide)

/-- C9: «For every constructed ClusterBatch, reading the verbose property
raises an AttributeError, because the getter invokes a method that does
not exist on the logger object, even though constructing the batch and
assigning to verbose both succeed.»  Confirmed: with a valid project the
constructor (which runs the `verbose` setter) succeeds for every verbosity
and pre-existing handler count, the `getLevel` lookup on the stdlib logger
API yields nothing, and the getter raises `AttributeError`. -/
theorem C9_verbose_getter_raises (projName : String) (verbose : Bool)
    (nHandlers : Nat) :
    loggerGetMethod "getLevel" = none ∧
    ∃ b : BatchState, clusterBatchInit projName true verbose nHandlers = Except.ok b ∧
      verboseGet b.logger = Except.error PyError.attributeError := by
  have hget : ∀ lg : PyLogger, verboseGet lg = Except.error PyError.attributeError := by
    intro lg
    simp [verboseGet, loggerGetMethod]
  refine ⟨rfl, ?_⟩
  cases hb : clusterBatchInit projName true verbose nHandlers with
  | error e =>
    exfalso
    unfold clusterBatchInit at hb
    simp at hb
  | ok b => exact ⟨b, rfl, hget b.logger⟩

/-- C10: «For every ClusterBatch, calling kill with an explicit non-None
jobid raises a TypeError as soon as iteration reaches a job whose job
identifier is still unassigned (None cannot be converted to int), instead
of skipping that job.»  Confirmed: if every earlier job in the list either
carries a numeric identifier different from the target, or matches it and
is killed without an exception, the loop reaches the identifier-less job
and `int(job._jobid)` raises `TypeError` there. -/
theorem C10_targeted_kill_typeerror (pre post : List (JobState × String))
    (j : JobState) (resp : String) (jid : Int) (qdelOk : Bool)
    (hj : j.jobid = none)
    (hpre : ∀ p ∈ pre, ∃ str n, p.1.jobid = some str ∧ pyIntOfStr str = some n ∧
      (n ≠ jid ∨ (kill p.1 p.2 qdelOk).err = none)) :
    (batchKill (pre ++ (j, resp) :: post) (some jid) qdelOk).2 =
      some PyError.typeError := by
  simp only [batchKill]
  induction pre with
  | nil => simp [batchKillTargeted, hj]
  | cons p rest ih =>
    obtain ⟨pj, presp⟩ := p
    obtain ⟨str, n, hjob0, hint, hcase0⟩ := hpre (pj, presp) (by simp)
    have hjob : pj.jobid = some str := hjob0
    have hcase : n ≠ jid ∨ (kill pj presp qdelOk).err = none := hcase0
    have hrest : ∀ q ∈ rest, ∃ str n, q.1.jobid = some str ∧
        pyIntOfStr str = some n ∧
        (n ≠ jid ∨ (kill q.1 q.2 qdelOk).err = none) :=
      fun q hq => hpre q (by simp [hq])
    by_cases heq : n = jid
    · rcases hcase with hne | hkill
      · exact absurd heq hne
      · simp [batchKillTargeted, hjob, hint, heq, hkill]
        exact ih hrest
    · simp [batchKillTargeted, hjob, hint, heq]
      exact ih hrest

/-- Witness for `C10_targeted_kill_typeerror`: a two-job batch whose
second job is not yet submitted. -/
theorem C10_targeted_kill_typeerror_witness :
    (batchKill
      [({ initJobState with jobid := some "777" }, ""), (initJobState, "")]
      (some 5) true).2 = some PyError.typeError := by
  have h := C10_targeted_kill_typeerror
      [({ initJobState with jobid := some "777" }, "")] [] initJobState "" 5 true
      (by decide)
      (by
        intro p hp
        simp at hp
        subst hp
        exact ⟨"777", 777, rfl, by decide, Or.inl (by decide)⟩)
  simpa using h
